/-
  Verification development for the Blogthemplet repository.

  Shallow embedding of the SEO analyzer (`analyzeSEO` and its helper
  functions), the upload POST handler, and the sitemap generator, together
  with theorems settling the specification claims about them.

  Modelling conventions:
  * JS strings are Lean `String`s; character classes (`\s`, `\w`) are
    modelled on their ASCII fragment.
  * JS numbers are modelled as exact fractions (`Frac`, an unreduced
    `Int` numerator over a positive `Int` denominator); the floating-point
    rounding of IEEE doubles is not modelled, branch thresholds are exact.
  * The JS `RegExp` constructor applied to an arbitrary keyword is
    modelled on the fragment of metacharacter-free patterns (global literal
    substring search); a nonempty pattern consisting only of opening
    parentheses (an unterminated group) is modelled as the SyntaxError the
    constructor throws; all other patterns are outside the modelled
    fragment.
-/
import Mathlib

namespace Blog

/-! ## Exact fractions

JS numbers in the analyzer are quotients of integers; we model them as
unreduced fractions with a positive denominator.  All operations below
are used only with positive denominators, which every constructor here
maintains. -/

structure Frac where
  num : Int
  den : Int
deriving DecidableEq, Repr

namespace Frac

def ofInt (n : Int) : Frac := ⟨n, 1⟩

def add (a b : Frac) : Frac := ⟨a.num * b.den + b.num * a.den, a.den * b.den⟩

def sub (a b : Frac) : Frac := ⟨a.num * b.den - b.num * a.den, a.den * b.den⟩

def mul (a b : Frac) : Frac := ⟨a.num * b.num, a.den * b.den⟩

/-- Division; used only with a divisor whose numerator and denominator
are positive. -/
def div (a b : Frac) : Frac := ⟨a.num * b.den, a.den * b.num⟩

/-- `a ≤ b`, valid for positive denominators. -/
def le (a b : Frac) : Bool := decide (a.num * b.den ≤ b.num * a.den)

/-- `a < b`, valid for positive denominators. -/
def lt (a b : Frac) : Bool := decide (a.num * b.den < b.num * a.den)

def minF (a b : Frac) : Frac := if le a b then a else b

def maxF (a b : Frac) : Frac := if le a b then b else a

/-- `Math.ceil`, valid for a positive denominator. -/
def ceil (f : Frac) : Int := -((-f.num).ediv f.den)

end Frac

/-! ## Character classes (ASCII fragment of the JS classes) -/

/-- The JS whitespace class `\s`, restricted to its ASCII members. -/
def jsSpaceChars : List Char := [' ', '\t', '\n', '\r', '\x0b', '\x0c']

def isJsSpace (c : Char) : Bool := jsSpaceChars.contains c

/-- The JS word class `\w` (`[A-Za-z0-9_]`). -/
def isWordChar (c : Char) : Bool := c.isAlpha || c.isDigit || c = '_'

def isAsciiLower (c : Char) : Bool := 'a' ≤ c && c ≤ 'z'

/-- `String.toLowerCase`, ASCII fragment (Lean's `Char.toLower` lowers `A`-`Z`). -/
def toLowerAscii (s : String) : String := String.mk (s.toList.map Char.toLower)

/-- `String.prototype.trim`, ASCII-whitespace fragment. -/
def trimJs (s : String) : String :=
  String.mk (((s.toList.dropWhile isJsSpace).reverse.dropWhile isJsSpace).reverse)

/-! ## `String.prototype.split` on a run-of-separator regex

JS `split(/\s+/)` splits on maximal runs (length ≥ 1) of whitespace,
`split(/\n\n+/)` on maximal runs (length ≥ 2) of newlines, and
`split(/[.!?]+/)` on maximal runs (length ≥ 1) of sentence punctuation.
`splitRuns p minRun` implements all three: a maximal run of characters
satisfying `p` of length at least `minRun` separates two fields; a shorter
run stays inside its field.  Leading and trailing separators produce empty
fields, as in JS. -/

def splitRunsGo (p : Char → Bool) (minRun : Nat) :
    List Char → List Char → List Char → List String
  | [], acc, run =>
      if minRun ≤ run.length then [String.mk acc, ""]
      else [String.mk (acc ++ run)]
  | c :: rest, acc, run =>
      if p c then splitRunsGo p minRun rest acc (run ++ [c])
      else if minRun ≤ run.length then
        String.mk acc :: splitRunsGo p minRun rest [c] []
      else splitRunsGo p minRun rest (acc ++ run ++ [c]) []

def splitRuns (p : Char → Bool) (minRun : Nat) (s : String) : List String :=
  splitRunsGo p minRun s.toList [] []

/-- `countWords`: `text.trim().split(/\s+/).filter(w => w.length > 0).length`. -/
def countWords (text : String) : Nat :=
  ((splitRuns isJsSpace 1 (trimJs text)).filter (fun w => 0 < w.length)).length

/-! ## Stripping HTML tags: `content.replace(/<[^>]*>/g, '')`

A match is a `<`, then characters other than `>`, then the first `>`.
An unmatched trailing `<...` (no closing `>`) is kept verbatim.  The
scanner keeps the pending candidate tag in reversed order. -/

def stripTagsGo : List Char → Option (List Char) → List Char
  | [], none => []
  | [], some pend => pend.reverse
  | c :: rest, none =>
      if c = '<' then stripTagsGo rest (some [c]) else c :: stripTagsGo rest none
  | c :: rest, some pend =>
      if c = '>' then stripTagsGo rest none else stripTagsGo rest (some (c :: pend))

def stripHtmlTags (s : String) : String := String.mk (stripTagsGo s.toList none)

/-! ## Focus keyword extraction -/

/-- The stop-word list of `extractFocusKeyword`. -/
def stopWords : List String :=
  ["the", "a", "an", "and", "or", "but", "in", "on", "at", "to", "for", "of",
   "with", "by", "from", "as", "is", "was", "are", "be", "been", "being",
   "have", "has", "had", "do", "does", "did", "will", "would", "should",
   "could", "may", "might", "must", "can", "how", "what", "when", "where",
   "why", "which", "who", "best", "top", "guide", "tutorial", "2024", "2025"]

/-- `title.toLowerCase().replace(/[^\w\s]/g, '').split(/\s+/)` followed by
`filter(word => word.length > 2 && !stopWords.includes(word))`. -/
def cleanTitleWords (title : String) : List String :=
  ((splitRuns isJsSpace 1
      (String.mk ((toLowerAscii title).toList.filter
        (fun c => isWordChar c || isJsSpace c)))).filter
    (fun w => decide (2 < w.length) && !stopWords.contains w))

/-- `extractFocusKeyword(title, tags)`. -/
def extractFocusKeyword (title : String) (tags : List String) : String :=
  match cleanTitleWords title, tags with
  | w1 :: w2 :: _, _ => w1 ++ " " ++ w2
  | _ :: _, t :: _ => toLowerAscii t
  | [], t :: _ => toLowerAscii t
  | ws, [] => ws.headD ""

/-! ## The `RegExp` fragment used on the focus keyword

`calculateKeywordDensity` and `analyzeSEO` build `new RegExp(keyword, 'g')`
from the raw focus keyword.  We model:
* patterns free of regex metacharacters: global literal substring search
  (an empty pattern matches at every position, `length + 1` matches);
* nonempty patterns made only of `(`: the `SyntaxError` ("unterminated
  group") thrown by the constructor;
* anything else: outside the modelled fragment. -/

inductive RegexFailure where
  | syntaxError
  | unmodelled
deriving DecidableEq, Repr

def regexMetaChars : List Char :=
  ['\\', '^', '$', '.', '|', '?', '*', '+', '(', ')', '[', ']', '\x7b', '\x7d']

def regexLiteralPattern (pat : String) : Bool :=
  pat.toList.all (fun c => !regexMetaChars.contains c)

/-- Number of matches of `text.match(new RegExp(pat, 'g'))` for a literal
pattern: leftmost, non-overlapping; the empty pattern matches at every
position (`text.length + 1` matches).  The scan advances through the text
by at least one character per step, so structural recursion on a fuel of
`text.length + 1` computes the full scan. -/
def countLiteralMatchesGo : Nat → List Char → List Char → Nat
  | 0, _, _ => 0
  | _ + 1, [], pat => if pat.isEmpty then 1 else 0
  | fuel + 1, _ :: rest, [] => 1 + countLiteralMatchesGo fuel rest []
  | fuel + 1, t :: rest, p :: ps =>
      if (p :: ps).isPrefixOf (t :: rest) then
        1 + countLiteralMatchesGo fuel (rest.drop ps.length) (p :: ps)
      else countLiteralMatchesGo fuel rest (p :: ps)

def countLiteralMatches (text pat : List Char) : Nat :=
  countLiteralMatchesGo (text.length + 1) text pat

/-- `(text.match(new RegExp(pat, 'g')) || []).length`, on the modelled
regex fragment. -/
def jsGlobalMatchCount (text pat : String) : Except RegexFailure Nat :=
  if regexLiteralPattern pat then
    Except.ok (countLiteralMatches text.toList pat.toList)
  else if pat.toList.all (fun c => c = '(') then Except.error RegexFailure.syntaxError
  else Except.error RegexFailure.unmodelled

/-- `calculateKeywordDensity(content, keyword)`: `0` for an empty keyword,
otherwise `keywordCount / totalWords * 100` (and `0` when there are no
words). -/
def calculateKeywordDensity (content keyword : String) : Except RegexFailure Frac :=
  if keyword = "" then Except.ok (Frac.ofInt 0)
  else
    match jsGlobalMatchCount (toLowerAscii content) (toLowerAscii keyword) with
    | Except.error e => Except.error e
    | Except.ok keywordCount =>
        let totalWords := countWords content
        Except.ok (if 0 < totalWords then
          Frac.mul (Frac.div (Frac.ofInt keywordCount) (Frac.ofInt totalWords))
            (Frac.ofInt 100)
        else Frac.ofInt 0)

/-- Substring test on character lists. -/
def containsSub (needle hay : List Char) : Bool :=
  hay.tails.any (fun t => needle.isPrefixOf t)

/-- `keywordInText(text, keyword)`: `false` for an empty keyword, else a
case-insensitive substring test. -/
def keywordInText (text keyword : String) : Bool :=
  if keyword = "" then false
  else containsSub (toLowerAscii keyword).toList (toLowerAscii text).toList

/-! ## Paragraph extraction -/

/-- `getFirstParagraph(content)`: strip tags, split on `/\n\n+/`, first
field (`|| ''` maps a falsy first field to the empty string, which is the
identity on strings). -/
def getFirstParagraph (content : String) : String :=
  (splitRuns (fun c => c = '\n') 2 (stripHtmlTags content)).headD ""

/-- `getLastParagraph(content)`: strip tags, split on `/\n\n+/`, drop
fields that are whitespace only, last field or `''`. -/
def getLastParagraph (content : String) : String :=
  ((splitRuns (fun c => c = '\n') 2 (stripHtmlTags content)).filter
    (fun p => 0 < (trimJs p).length)).getLastD ""

/-! ## Heading, link and image counting -/

/-- Case-insensitive prefix test (`pat` is given in lowercase). -/
def ciStartsWith (pat : List Char) (l : List Char) : Bool :=
  (l.take pat.length).map Char.toLower == pat

/-- Drop everything up to and including the first `>`; `none` if there is
no `>`. -/
def findAfterGt : List Char → Option (List Char)
  | [] => none
  | c :: rest => if c = '>' then some rest else findAfterGt rest

theorem findAfterGt_length {l r : List Char} (h : findAfterGt l = some r) :
    r.length < l.length := by
  induction l with
  | nil => simp [findAfterGt] at h
  | cons c rest ih =>
    by_cases hc : c = '>'
    · simp [findAfterGt, hc] at h
      subst h; simp
    · simp [findAfterGt, hc] at h
      exact Nat.lt_trans (ih h) (by simp)

/-- Number of global case-insensitive matches of `openSeq ++ [^>]* ++ '>'`
(the `/<h1[^>]*>/gi` shape).  `openSeq` is given in lowercase and is
nonempty at every use site.  If the opening sequence occurs but no `>`
follows anywhere, neither this nor any later position can match. -/
def countOpenTagMatchesGo (openSeq : List Char) : Nat → List Char → Nat
  | 0, _ => 0
  | _ + 1, [] => 0
  | fuel + 1, t :: rest =>
      if ciStartsWith openSeq (t :: rest) then
        match findAfterGt ((t :: rest).drop openSeq.length) with
        | some rest2 => 1 + countOpenTagMatchesGo openSeq fuel rest2
        | none => 0
      else countOpenTagMatchesGo openSeq fuel rest

def countOpenTagMatches (openSeq : List Char) (l : List Char) : Nat :=
  countOpenTagMatchesGo openSeq (l.length + 1) l

structure HeadingCounts where
  h1 : Nat
  h2 : Nat
  h3 : Nat
deriving DecidableEq, Repr

/-- `countHeadings(content)`. -/
def countHeadings (content : String) : HeadingCounts :=
  { h1 := countOpenTagMatches "<h1".toList content.toList
    h2 := countOpenTagMatches "<h2".toList content.toList
    h3 := countOpenTagMatches "<h3".toList content.toList }

def isQuote (c : Char) : Bool := c = '"' || c = Char.ofNat 39

/-- Scan a tag body for `href=` (case-insensitive) followed by a quote;
return what follows the opening quote. -/
def findHrefAfterQuote : List Char → Option (List Char)
  | [] => none
  | c :: rest =>
      if ciStartsWith "href=".toList (c :: rest) then
        match (c :: rest).drop 5 with
        | q :: rest2 => if isQuote q then some rest2 else findHrefAfterQuote rest
        | [] => none
      else findHrefAfterQuote rest

/-- The quoted value after the opening quote: characters other than the
two quote characters, which must be terminated by a quote
(`["']([^"']*)["']`). -/
def takeQuotedValue (l : List Char) : Option (List Char) :=
  let v := l.takeWhile (fun c => !isQuote c)
  if v.length < l.length then some v else none

/-- Classification of an href value in `countLinks`:
`some true` internal, `some false` external, `none` neither. -/
def classifyHref (href : String) (currentDomain : String) : Option Bool :=
  if "/".toList.isPrefixOf href.toList || containsSub currentDomain.toList href.toList then
    some true
  else if "http".toList.isPrefixOf href.toList then some false
  else none

/-- Global case-insensitive scan for matches of
`/<a[^>]*href=["']([^"']*)["'][^>]*>/gi`, classifying each captured href.
Modelled fragment: a tag ends at the first `>` after `<a`, and the quoted
href value lies before that `>` (href values containing `>` are outside
the fragment).  Returns `(internal, external)`. -/
def countLinksGo (domain : String) : Nat → List Char → Nat × Nat
  | 0, _ => (0, 0)
  | _ + 1, [] => (0, 0)
  | fuel + 1, t :: rest =>
      if ciStartsWith "<a".toList (t :: rest) then
        let inner := rest.drop 1
        let body := inner.takeWhile (fun c => c ≠ '>')
        if body.length < inner.length then
          let afterTag := inner.drop (body.length + 1)
          match findHrefAfterQuote body with
          | some afterQuote =>
            match takeQuotedValue afterQuote with
            | some v =>
              let res := countLinksGo domain fuel afterTag
              match classifyHref (String.mk v) domain with
              | some true => (res.1 + 1, res.2)
              | some false => (res.1, res.2 + 1)
              | none => res
            | none => countLinksGo domain fuel rest
          | none => countLinksGo domain fuel rest
        else (0, 0)
      else countLinksGo domain fuel rest

def defaultDomain : String := "iptv-blogg.site"

/-- `countLinks(content, currentDomain)`. -/
def countLinks (content : String) (currentDomain : String) : Nat × Nat :=
  countLinksGo currentDomain (content.toList.length + 1) content.toList

/-- `/alt=["'][^"']+["']/i.test(s)`: somewhere in `s`, `alt=` followed by
a quote, one or more non-quote characters, and a quote. -/
def hasAltAttr : List Char → Bool
  | [] => false
  | c :: rest =>
      (ciStartsWith "alt=".toList (c :: rest) &&
        (match (c :: rest).drop 4 with
         | q :: rest2 =>
             isQuote q &&
               (let v := rest2.takeWhile (fun c2 => !isQuote c2)
                decide (0 < v.length) && decide (v.length < rest2.length))
         | [] => false)) ||
      hasAltAttr rest

/-- Global case-insensitive scan for `/<img[^>]*>/gi`, testing each match
string for the alt-attribute pattern.  Returns `(total, withAlt)`. -/
def countImagesGo : Nat → List Char → Nat × Nat
  | 0, _ => (0, 0)
  | _ + 1, [] => (0, 0)
  | fuel + 1, t :: rest =>
      if ciStartsWith "<img".toList (t :: rest) then
        let inner := rest.drop 3
        let body := inner.takeWhile (fun c => c ≠ '>')
        if body.length < inner.length then
          let matchStr := (t :: rest).take (4 + body.length + 1)
          let res := countImagesGo fuel (inner.drop (body.length + 1))
          (res.1 + 1, res.2 + (if hasAltAttr matchStr then 1 else 0))
        else (0, 0)
      else countImagesGo fuel rest

/-- `countImages(content)`. -/
def countImages (content : String) : Nat × Nat :=
  countImagesGo (content.toList.length + 1) content.toList

/-! ## Readability -/

def isVowelY (c : Char) : Bool := ['a', 'e', 'i', 'o', 'u', 'y'].contains c

/-- Matches of `/[aeiouy]{1,2}/g` in a word: a maximal run of `k` vowels
yields `⌈k / 2⌉` greedy non-overlapping matches. -/
def vowelGroupsGo : Nat → List Char → Nat
  | 0, _ => 0
  | _ + 1, [] => 0
  | fuel + 1, c :: rest =>
      if isVowelY c then
        let run := (c :: rest).takeWhile isVowelY
        (run.length + 1) / 2 + vowelGroupsGo fuel ((c :: rest).drop run.length)
      else vowelGroupsGo fuel rest

def vowelGroups (l : List Char) : Nat := vowelGroupsGo (l.length + 1) l

/-- Matches of `/\b[a-z]+\b/g` on (lowercased) text: maximal runs of
`a`-`z` whose neighbouring characters, when present, are not word
characters.  The Boolean argument records whether the previous character
was a word character. -/
def syllableWordsGo : Nat → Bool → List Char → List (List Char)
  | 0, _, _ => []
  | _ + 1, _, [] => []
  | fuel + 1, prevW, c :: rest =>
      if isAsciiLower c then
        let run := (c :: rest).takeWhile isAsciiLower
        let after := (c :: rest).drop run.length
        let okRight := match after with
          | [] => true
          | d :: _ => !isWordChar d
        (if !prevW && okRight then [run] else []) ++ syllableWordsGo fuel true after
      else syllableWordsGo fuel (isWordChar c) rest

def syllableWords (l : List Char) : List (List Char) :=
  syllableWordsGo (l.length + 1) false l

/-- `estimateSyllables(text)`: for each matched word, the number of
`/[aeiouy]{1,2}/g` matches, or `1` when there are none (`|| 1`). -/
def estimateSyllables (text : String) : Nat :=
  ((syllableWords (toLowerAscii text).toList).map
    (fun w => let g := vowelGroups w; if g = 0 then 1 else g)).sum

/-- `calculateReadability(content)`: the Flesch formula
`206.835 - 1.015 * (words / sentences) - 84.6 * (syllables / words)`
clamped to `[0, 100]`, or `0` when there are no sentences or words. -/
def calculateReadability (content : String) : Frac :=
  let text := stripHtmlTags content
  let sentences :=
    ((splitRuns (fun c => c = '.' || c = '!' || c = '?') 1 text).filter
      (fun s => 0 < (trimJs s).length)).length
  let words := countWords text
  let syllables := estimateSyllables text
  if sentences = 0 ∨ words = 0 then Frac.ofInt 0
  else
    let score : Frac :=
      Frac.sub
        (Frac.sub (Frac.mk 206835 1000)
          (Frac.mul (Frac.mk 1015 1000)
            (Frac.div (Frac.ofInt words) (Frac.ofInt sentences))))
        (Frac.mul (Frac.mk 846 10)
          (Frac.div (Frac.ofInt syllables) (Frac.ofInt words)))
    Frac.maxF (Frac.ofInt 0) (Frac.minF (Frac.ofInt 100) score)

/-! ## Number formatting (`toFixed`) -/

def padLeftZeros (s : String) (d : Nat) : String :=
  if s.length < d then String.mk (List.replicate (d - s.length) '0') ++ s else s

/-- `q.toFixed(d)` for the nonnegative fractions produced by the analyzer,
rounding half up to `d` decimal places. -/
def qToFixed (q : Frac) (d : Nat) : String :=
  let n : Nat := ((2 * q.num * ((10 : Int) ^ d) + q.den).ediv (2 * q.den)).toNat
  if d = 0 then toString (n / 10 ^ d)
  else toString (n / 10 ^ d) ++ "." ++ padLeftZeros (toString (n % 10 ^ d)) d

/-! ## The analysis record -/

inductive SEOStatus where
  | good
  | warning
  | error
deriving DecidableEq, Repr

/-- A JS value that is either a string or a number. -/
inductive JsValue where
  | str (s : String)
  | num (q : Frac)
deriving DecidableEq, Repr

structure SEOCheck where
  status : SEOStatus
  value : JsValue
  message : String
  score : Nat
deriving DecidableEq, Repr

structure ContentCheck extends SEOCheck where
  wordCount : Nat
deriving DecidableEq, Repr

structure KeywordCheck extends SEOCheck where
  keyword : String
  density : Frac
  inTitle : Bool
  inFirstParagraph : Bool
  inLastParagraph : Bool
  count : Nat
deriving DecidableEq, Repr

structure HeadingCheck extends SEOCheck where
  h1Count : Nat
  h2Count : Nat
  h3Count : Nat
deriving DecidableEq, Repr

structure LinkCheck extends SEOCheck where
  internal : Nat
  external : Nat
deriving DecidableEq, Repr

structure ImageCheck extends SEOCheck where
  total : Nat
  withAlt : Nat
deriving DecidableEq, Repr

structure ReadabilityCheck extends SEOCheck where
  grade : Frac
deriving DecidableEq, Repr

structure SEOAnalysis where
  score : Nat
  title : SEOCheck
  description : SEOCheck
  content : ContentCheck
  keyword : KeywordCheck
  headings : HeadingCheck
  links : LinkCheck
  images : ImageCheck
  slug : SEOCheck
  readability : ReadabilityCheck
  suggestions : List String
deriving DecidableEq, Repr

/-! ## The nine scoring blocks

Each block mirrors one `// ... check` section of `analyzeSEO`: it builds
the check record and the suggestions that section pushes, in order. -/

/-- Title check (15 points). -/
def titleBlock (title : String) : SEOCheck × List String :=
  if title.length = 0 then
    ({ status := SEOStatus.error, value := JsValue.num (Frac.ofInt title.length),
       message := "Title is required", score := 0 },
     ["Add a title to your article"])
  else if title.length < 30 then
    ({ status := SEOStatus.warning, value := JsValue.num (Frac.ofInt title.length),
       message := "Title too short (" ++ toString title.length ++ " chars). Aim for 50-60.",
       score := 7 },
     ["Lengthen your title to 50-60 characters"])
  else if title.length > 60 then
    ({ status := SEOStatus.warning, value := JsValue.num (Frac.ofInt title.length),
       message := "Title too long (" ++ toString title.length ++ " chars). Keep under 60.",
       score := 10 },
     ["Shorten your title to under 60 characters"])
  else
    ({ status := SEOStatus.good, value := JsValue.num (Frac.ofInt title.length),
       message := "Title length perfect (" ++ toString title.length ++ " chars)",
       score := 15 },
     [])

/-- Description check (10 points). -/
def descriptionBlock (description : String) : SEOCheck × List String :=
  if description.length = 0 then
    ({ status := SEOStatus.error, value := JsValue.num (Frac.ofInt description.length),
       message := "Meta description is required", score := 0 },
     ["Add a meta description"])
  else if description.length < 120 then
    ({ status := SEOStatus.warning, value := JsValue.num (Frac.ofInt description.length),
       message := "Too short (" ++ toString description.length ++ " chars). Aim for 150-160.",
       score := 5 },
     ["Add " ++ toString (160 - description.length) ++ " more characters to meta description"])
  else if description.length > 160 then
    ({ status := SEOStatus.warning, value := JsValue.num (Frac.ofInt description.length),
       message := "Too long (" ++ toString description.length ++ " chars). Keep under 160.",
       score := 7 },
     ["Shorten meta description to under 160 characters"])
  else
    ({ status := SEOStatus.good, value := JsValue.num (Frac.ofInt description.length),
       message := "Perfect length (" ++ toString description.length ++ " chars)",
       score := 10 },
     [])

/-- Content check (20 points), a function of the word count alone. -/
def contentBlock (wordCount : Nat) : ContentCheck × List String :=
  if wordCount = 0 then
    ({ status := SEOStatus.error, value := JsValue.num (Frac.ofInt wordCount),
       message := "Content is empty", score := 0, wordCount := wordCount },
     ["Write your article content"])
  else if wordCount < 300 then
    ({ status := SEOStatus.error, value := JsValue.num (Frac.ofInt wordCount),
       message := "Too short (" ++ toString wordCount ++ " words). Minimum 1500 words.",
       score := 5, wordCount := wordCount },
     ["Add " ++ toString (1500 - wordCount) ++ " more words to reach minimum"])
  else if wordCount < 1000 then
    ({ status := SEOStatus.warning, value := JsValue.num (Frac.ofInt wordCount),
       message := "Short (" ++ toString wordCount ++ " words). Aim for 1500+.",
       score := 10, wordCount := wordCount },
     ["Add " ++ toString (1500 - wordCount) ++ " more words for better SEO"])
  else if wordCount < 1500 then
    ({ status := SEOStatus.warning, value := JsValue.num (Frac.ofInt wordCount),
       message := "Good (" ++ toString wordCount ++ " words). Aim for 1500+.",
       score := 15, wordCount := wordCount },
     ["Add " ++ toString (1500 - wordCount) ++ " more words to reach target"])
  else
    ({ status := SEOStatus.good, value := JsValue.num (Frac.ofInt wordCount),
       message := "Excellent (" ++ toString wordCount ++ " words)",
       score := 20, wordCount := wordCount },
     [])

/-- Keyword check (20 points). -/
def keywordBlock (title focusKeyword firstParagraph lastParagraph : String)
    (keywordDensity : Frac) (keywordCount wordCount : Nat) :
    KeywordCheck × List String :=
  let inTitle := keywordInText title focusKeyword
  let inFirst := keywordInText firstParagraph focusKeyword
  let inLast := keywordInText lastParagraph focusKeyword
  let s1 : List String :=
    if inTitle then [] else ["Add \"" ++ focusKeyword ++ "\" to your title"]
  let s2 : List String :=
    if inFirst then [] else ["Add \"" ++ focusKeyword ++ "\" to first paragraph"]
  let s3 : List String :=
    if inLast then [] else ["Add \"" ++ focusKeyword ++ "\" to last paragraph"]
  let base : Nat :=
    (if inTitle then 5 else 0) + (if inFirst then 5 else 0) + (if inLast then 3 else 0)
  let common : KeywordCheck :=
    { status := SEOStatus.good, value := JsValue.str (qToFixed keywordDensity 2),
      message := "", score := 0, keyword := focusKeyword, density := keywordDensity,
      inTitle := inTitle, inFirstParagraph := inFirst, inLastParagraph := inLast,
      count := keywordCount }
  if Frac.le (Frac.mk 1 2) keywordDensity && Frac.le keywordDensity (Frac.mk 5 2) then
    ({ common with
        score := base + 7,
        status := SEOStatus.good,
        message := "Keyword density perfect (" ++ qToFixed keywordDensity 1 ++ "%)" },
     s1 ++ s2 ++ s3)
  else if Frac.lt keywordDensity (Frac.mk 1 2) then
    ({ common with
        score := base + 3,
        status := SEOStatus.warning,
        message := "Keyword density low (" ++ qToFixed keywordDensity 1 ++
          "%). Use \"" ++ focusKeyword ++ "\" more." },
     s1 ++ s2 ++ s3 ++
       ["Use \"" ++ focusKeyword ++ "\" " ++
         toString ((Frac.sub (Frac.mul (Frac.mk 1 100) (Frac.ofInt wordCount)) (Frac.ofInt keywordCount)).ceil) ++
         " more times"])
  else
    ({ common with
        score := base + 3,
        status := SEOStatus.warning,
        message := "Keyword density high (" ++ qToFixed keywordDensity 1 ++
          "%). Reduce usage." },
     s1 ++ s2 ++ s3 ++ ["Reduce keyword usage to avoid keyword stuffing"])

/-- Headings check (10 points). -/
def headingBlock (h : HeadingCounts) : HeadingCheck × List String :=
  let value := JsValue.str
    ("H1:" ++ toString h.h1 ++ " H2:" ++ toString h.h2 ++ " H3:" ++ toString h.h3)
  if h.h1 = 0 then
    ({ status := SEOStatus.error, value := value, message := "No H1 heading found",
       score := 0, h1Count := h.h1, h2Count := h.h2, h3Count := h.h3 },
     ["Add one H1 heading"])
  else if h.h1 > 1 then
    ({ status := SEOStatus.warning, value := value,
       message := "Multiple H1 headings (" ++ toString h.h1 ++ "). Use only one.",
       score := 5, h1Count := h.h1, h2Count := h.h2, h3Count := h.h3 },
     ["Use only one H1 heading per article"])
  else if h.h2 < 2 then
    ({ status := SEOStatus.warning, value := value,
       message := "Add more H2 headings for structure",
       score := 7, h1Count := h.h1, h2Count := h.h2, h3Count := h.h3 },
     ["Add at least 3-5 H2 headings"])
  else
    ({ status := SEOStatus.good, value := value, message := "Good heading structure",
       score := 10, h1Count := h.h1, h2Count := h.h2, h3Count := h.h3 },
     [])

/-- Links check (10 points).  The status becomes `warning` exactly when
one of the two "too few" branches runs. -/
def linkBlock (internal external : Nat) : LinkCheck × List String :=
  let value := JsValue.str
    ("Internal:" ++ toString internal ++ " External:" ++ toString external)
  let internalScore : Nat :=
    if 3 ≤ internal ∧ internal ≤ 7 then 6 else if internal < 3 then 3 else 5
  let internalSugg : List String :=
    if internal < 3 then ["Add " ++ toString (3 - internal) ++ " more internal links"]
    else []
  let externalScore : Nat :=
    if 2 ≤ external ∧ external ≤ 5 then 4 else if external < 2 then 2 else 3
  let externalSugg : List String :=
    if external < 2 then ["Add " ++ toString (2 - external) ++ " more external links"]
    else []
  let status := if internal < 3 ∨ external < 2 then SEOStatus.warning else SEOStatus.good
  ({ status := status, value := value,
     message := if internal < 3 ∨ external < 2 then "Improve link structure"
       else "Good link structure",
     score := internalScore + externalScore, internal := internal, external := external },
   internalSugg ++ externalSugg)

/-- Images check (5 points). -/
def imageBlock (total withAlt : Nat) : ImageCheck × List String :=
  let value := JsValue.str
    (toString total ++ " images, " ++ toString withAlt ++ " with alt")
  if total = 0 then
    ({ status := SEOStatus.warning, value := value,
       message := "No images found. Add images to improve engagement.",
       score := 2, total := total, withAlt := withAlt },
     ["Add at least 3-5 images to your article"])
  else if withAlt < total then
    ({ status := SEOStatus.warning, value := value,
       message := toString (total - withAlt) ++ " images missing alt text",
       score := 3, total := total, withAlt := withAlt },
     ["Add alt text to " ++ toString (total - withAlt) ++ " images"])
  else
    ({ status := SEOStatus.good, value := value, message := "All images have alt text",
       score := 5, total := total, withAlt := withAlt },
     [])

def isSlugChar (c : Char) : Bool := isAsciiLower c || c.isDigit || c = '-'

/-- Slug check (5 points).  `/^[a-z0-9-]+$/` on a nonempty slug is the
test that every character is a lowercase letter, digit or hyphen. -/
def slugBlock (slug : String) : SEOCheck × List String :=
  if slug.length = 0 then
    ({ status := SEOStatus.error, value := JsValue.str slug,
       message := "URL slug is required", score := 0 },
     ["Add a URL slug"])
  else if slug.length > 60 then
    ({ status := SEOStatus.warning, value := JsValue.str slug,
       message := "Slug too long. Keep under 60 characters.", score := 3 },
     ["Shorten URL slug"])
  else if ¬ (slug.toList.all isSlugChar) then
    ({ status := SEOStatus.warning, value := JsValue.str slug,
       message := "Use only lowercase letters, numbers, and hyphens", score := 3 },
     ["Fix URL slug format"])
  else
    ({ status := SEOStatus.good, value := JsValue.str slug,
       message := "Good URL slug", score := 5 },
     [])

/-- Readability check (5 points). -/
def readabilityBlock (readability : Frac) : ReadabilityCheck × List String :=
  if Frac.le (Frac.ofInt 60) readability then
    ({ status := SEOStatus.good, value := JsValue.str (qToFixed readability 0),
       message := "Easy to read", score := 5, grade := readability },
     [])
  else if Frac.le (Frac.ofInt 30) readability then
    ({ status := SEOStatus.warning, value := JsValue.str (qToFixed readability 0),
       message := "Fairly difficult to read", score := 3, grade := readability },
     ["Simplify sentences for better readability"])
  else
    ({ status := SEOStatus.warning, value := JsValue.str (qToFixed readability 0),
       message := "Difficult to read", score := 2, grade := readability },
     ["Use shorter sentences and simpler words"])

/-! ## `analyzeSEO` -/

/-- The analysis record built by `analyzeSEO` once the keyword density and
keyword count have been computed.  `totalScore` accumulates exactly the
`score` field of each block, and is an integer, so `Math.round` is the
identity on it.  The suggestions are the blocks' suggestions in source
order, cut to the first five (`suggestions.slice(0, 5)`). -/
def mkAnalysis (title description content slug : String) (tags : List String)
    (keywordDensity : Frac) (keywordCount : Nat) : SEOAnalysis :=
  let focusKeyword := extractFocusKeyword title tags
  let wordCount := countWords content
  let tB := titleBlock title
  let dB := descriptionBlock description
  let cB := contentBlock wordCount
  let kB := keywordBlock title focusKeyword (getFirstParagraph content)
    (getLastParagraph content) keywordDensity keywordCount wordCount
  let hB := headingBlock (countHeadings content)
  let links := countLinks content defaultDomain
  let lB := linkBlock links.1 links.2
  let imgs := countImages content
  let iB := imageBlock imgs.1 imgs.2
  let sB := slugBlock slug
  let rB := readabilityBlock (calculateReadability content)
  { score := tB.1.score + dB.1.score + cB.1.score + kB.1.score + hB.1.score +
      lB.1.score + iB.1.score + sB.1.score + rB.1.score,
    title := tB.1, description := dB.1, content := cB.1, keyword := kB.1,
    headings := hB.1, links := lB.1, images := iB.1, slug := sB.1,
    readability := rB.1,
    suggestions :=
      (tB.2 ++ dB.2 ++ cB.2 ++ kB.2 ++ hB.2 ++ lB.2 ++ iB.2 ++ sB.2 ++ rB.2).take 5 }

/-- `analyzeSEO(title, description, content, slug, tags)`.  The two
`new RegExp(focusKeyword.toLowerCase(), 'g')` constructions (inside
`calculateKeywordDensity`, then for `keywordCount`) are the only failure
points; the first failure propagates, every other part is total. -/
def analyzeSEO (title description content slug : String) (tags : List String) :
    Except RegexFailure SEOAnalysis :=
  match calculateKeywordDensity content (extractFocusKeyword title tags),
      jsGlobalMatchCount (toLowerAscii content)
        (toLowerAscii (extractFocusKeyword title tags)) with
  | Except.error e, _ => Except.error e
  | Except.ok _, Except.error e => Except.error e
  | Except.ok d, Except.ok c =>
      Except.ok (mkAnalysis title description content slug tags d c)

/-! ## Score bounds of the nine blocks -/

theorem titleBlock_score_le (t : String) : (titleBlock t).1.score ≤ 15 := by
  unfold titleBlock; split_ifs <;> simp

theorem descriptionBlock_score_le (d : String) : (descriptionBlock d).1.score ≤ 10 := by
  unfold descriptionBlock; split_ifs <;> simp

theorem contentBlock_score_le (w : Nat) : (contentBlock w).1.score ≤ 20 := by
  unfold contentBlock; split_ifs <;> simp

theorem keywordBlock_score_bounds (t fk fp lp : String) (d : Frac) (c w : Nat) :
    3 ≤ (keywordBlock t fk fp lp d c w).1.score ∧
      (keywordBlock t fk fp lp d c w).1.score ≤ 20 := by
  unfold keywordBlock
  split_ifs <;> simp <;> split_ifs <;> simp

theorem headingBlock_score_le (h : HeadingCounts) : (headingBlock h).1.score ≤ 10 := by
  unfold headingBlock; split_ifs <;> simp

theorem linkBlock_score_bounds (i e : Nat) :
    5 ≤ (linkBlock i e).1.score ∧ (linkBlock i e).1.score ≤ 10 := by
  unfold linkBlock
  split_ifs <;> simp

theorem imageBlock_score_bounds (t a : Nat) :
    2 ≤ (imageBlock t a).1.score ∧ (imageBlock t a).1.score ≤ 5 := by
  unfold imageBlock; split_ifs <;> simp

theorem slugBlock_score_le (s : String) : (slugBlock s).1.score ≤ 5 := by
  unfold slugBlock; split_ifs <;> simp

theorem readabilityBlock_score_bounds (r : Frac) :
    2 ≤ (readabilityBlock r).1.score ∧ (readabilityBlock r).1.score ≤ 5 := by
  unfold readabilityBlock; split_ifs <;> simp

/-- An `Except.ok` result of `analyzeSEO` is `mkAnalysis` at the computed
density and count. -/
theorem analyzeSEO_ok {title description content slug : String}
    {tags : List String} {r : SEOAnalysis}
    (h : analyzeSEO title description content slug tags = Except.ok r) :
    ∃ d c, calculateKeywordDensity content (extractFocusKeyword title tags) =
        Except.ok d ∧
      jsGlobalMatchCount (toLowerAscii content)
        (toLowerAscii (extractFocusKeyword title tags)) = Except.ok c ∧
      r = mkAnalysis title description content slug tags d c := by
  unfold analyzeSEO at h
  cases hd : calculateKeywordDensity content (extractFocusKeyword title tags) with
  | error e => rw [hd] at h; simp at h
  | ok d =>
    cases hc : jsGlobalMatchCount (toLowerAscii content)
        (toLowerAscii (extractFocusKeyword title tags)) with
    | error e => rw [hd, hc] at h; simp at h
    | ok c =>
      rw [hd, hc] at h
      simp only [Except.ok.injEq] at h
      exact ⟨d, c, rfl, rfl, h.symm⟩

/-- A default record used to extract the `ok` value of an
`Except RegexFailure SEOAnalysis` in closed witness statements. -/
def dummyAnalysis : SEOAnalysis :=
  let ck : SEOCheck :=
    { status := SEOStatus.good, value := JsValue.num (Frac.ofInt 0), message := "", score := 0 }
  { score := 0, title := ck, description := ck,
    content := { toSEOCheck := ck, wordCount := 0 },
    keyword := { toSEOCheck := ck, keyword := "", density := Frac.ofInt 0, inTitle := false,
                 inFirstParagraph := false, inLastParagraph := false, count := 0 },
    headings := { toSEOCheck := ck, h1Count := 0, h2Count := 0, h3Count := 0 },
    links := { toSEOCheck := ck, internal := 0, external := 0 },
    images := { toSEOCheck := ck, total := 0, withAlt := 0 },
    slug := ck, readability := { toSEOCheck := ck, grade := Frac.ofInt 0 }, suggestions := [] }

/-! ## Claim theorems -/

/-- C1: for every input, the overall score returned by `analyzeSEO` equals
the sum of the nine component scores, each component is bounded by its
weight (title 15, description 10, content 20, keyword 20, headings 10,
links 10, images 5, slug 5, readability 5), and hence the overall score is
at most 100. -/
theorem analyzeSEO_score_eq_sum_of_components
    (title description content slug : String) (tags : List String)
    (r : SEOAnalysis)
    (h : analyzeSEO title description content slug tags = Except.ok r) :
    r.score =
      r.title.score + r.description.score + r.content.score + r.keyword.score +
        r.headings.score + r.links.score + r.images.score + r.slug.score +
        r.readability.score ∧
    r.title.score ≤ 15 ∧ r.description.score ≤ 10 ∧ r.content.score ≤ 20 ∧
    r.keyword.score ≤ 20 ∧ r.headings.score ≤ 10 ∧ r.links.score ≤ 10 ∧
    r.images.score ≤ 5 ∧ r.slug.score ≤ 5 ∧ r.readability.score ≤ 5 ∧
    r.score ≤ 100 := by
  obtain ⟨d, c, _, _, hr⟩ := analyzeSEO_ok h
  subst hr
  have h1 := titleBlock_score_le title
  have h2 := descriptionBlock_score_le description
  have h3 := contentBlock_score_le (countWords content)
  have h4 := keywordBlock_score_bounds title (extractFocusKeyword title tags)
    (getFirstParagraph content) (getLastParagraph content) d c (countWords content)
  have h5 := headingBlock_score_le (countHeadings content)
  have h6 := linkBlock_score_bounds (countLinks content defaultDomain).1
    (countLinks content defaultDomain).2
  have h7 := imageBlock_score_bounds (countImages content).1 (countImages content).2
  have h8 := slugBlock_score_le slug
  have h9 := readabilityBlock_score_bounds (calculateReadability content)
  refine ⟨rfl, h1, h2, h3, h4.2, h5, h6.2, h7.2, h8, h9.2, ?_⟩
  show (titleBlock title).1.score + _ + _ + _ + _ + _ + _ + _ + _ ≤ 100
  omega

/-- Witness for C1 at a concrete input. -/
theorem analyzeSEO_score_eq_sum_of_components_witness :
    ((analyzeSEO "My Title" "" "some words here." "my-slug" []).toOption.getD
        dummyAnalysis).score ≤ 100 :=
  (analyzeSEO_score_eq_sum_of_components "My Title" "" "some words here." "my-slug" []
    ((analyzeSEO "My Title" "" "some words here." "my-slug" []).toOption.getD
      dummyAnalysis) (by rfl)).2.2.2.2.2.2.2.2.2.2

/-- C2: the claim says `analyzeSEO` never throws, in particular when the
focus keyword falls back to the first tag.  The code contradicts this: on
an empty title with first tag `"("`, `calculateKeywordDensity` builds
`new RegExp("(", 'g')`, whose construction throws a `SyntaxError`
(unterminated group).  This theorem evaluates the embedding at that
failing input. -/
theorem analyzeSEO_throws_on_parenthesis_tag :
    analyzeSEO "" "" "some content" "" ["("] =
      Except.error RegexFailure.syntaxError := by rfl

/-- C3: `analyzeSEO` is deterministic and depends only on its five
arguments: equal inputs give equal analysis records. -/
theorem analyzeSEO_deterministic
    (t1 d1 c1 s1 : String) (g1 : List String)
    (t2 d2 c2 s2 : String) (g2 : List String)
    (ht : t1 = t2) (hd : d1 = d2) (hc : c1 = c2) (hs : s1 = s2) (hg : g1 = g2) :
    analyzeSEO t1 d1 c1 s1 g1 = analyzeSEO t2 d2 c2 s2 g2 := by
  subst ht; subst hd; subst hc; subst hs; subst hg; rfl

/-- Witness for C3 at a concrete input. -/
theorem analyzeSEO_deterministic_witness :
    analyzeSEO "A title" "desc" "body text" "slug" ["tag"] =
      analyzeSEO "A title" "desc" "body text" "slug" ["tag"] :=
  analyzeSEO_deterministic "A title" "desc" "body text" "slug" ["tag"]
    "A title" "desc" "body text" "slug" ["tag"] rfl rfl rfl rfl rfl

/-- C7: for every input on which `analyzeSEO` returns, the overall score
is between 12 and 100: the keyword component always awards at least 3
points, the links component at least 5, the images component at least 2,
and the readability component at least 2. -/
theorem analyzeSEO_score_between_12_and_100
    (title description content slug : String) (tags : List String)
    (r : SEOAnalysis)
    (h : analyzeSEO title description content slug tags = Except.ok r) :
    12 ≤ r.score ∧ r.score ≤ 100 ∧ 3 ≤ r.keyword.score ∧ 5 ≤ r.links.score ∧
      2 ≤ r.images.score ∧ 2 ≤ r.readability.score := by
  obtain ⟨d, c, _, _, hr⟩ := analyzeSEO_ok h
  subst hr
  have h1 := titleBlock_score_le title
  have h2 := descriptionBlock_score_le description
  have h3 := contentBlock_score_le (countWords content)
  have h4 := keywordBlock_score_bounds title (extractFocusKeyword title tags)
    (getFirstParagraph content) (getLastParagraph content) d c (countWords content)
  have h5 := headingBlock_score_le (countHeadings content)
  have h6 := linkBlock_score_bounds (countLinks content defaultDomain).1
    (countLinks content defaultDomain).2
  have h7 := imageBlock_score_bounds (countImages content).1 (countImages content).2
  have h8 := slugBlock_score_le slug
  have h9 := readabilityBlock_score_bounds (calculateReadability content)
  refine ⟨?_, ?_, h4.1, h6.1, h7.1, h9.1⟩
  · show 12 ≤ (titleBlock title).1.score + _ + _ + _ + _ + _ + _ + _ + _
    omega
  · show (titleBlock title).1.score + _ + _ + _ + _ + _ + _ + _ + _ ≤ 100
    omega

/-- Witness for C7: the empty input reaches the minimum score 12. -/
theorem analyzeSEO_score_between_12_and_100_witness :
    12 ≤ ((analyzeSEO "" "" "" "" []).toOption.getD dummyAnalysis).score :=
  (analyzeSEO_score_between_12_and_100 "" "" "" "" []
    ((analyzeSEO "" "" "" "" []).toOption.getD dummyAnalysis) (by rfl)).1

/-- C8: the suggestions list returned by `analyzeSEO` never has more than
five entries (`suggestions.slice(0, 5)`). -/
theorem analyzeSEO_suggestions_at_most_five
    (title description content slug : String) (tags : List String)
    (r : SEOAnalysis)
    (h : analyzeSEO title description content slug tags = Except.ok r) :
    r.suggestions.length ≤ 5 := by
  obtain ⟨d, c, _, _, hr⟩ := analyzeSEO_ok h
  subst hr
  show (List.take 5 _).length ≤ 5
  simp [List.length_take]

/-- Witness for C8 at a concrete input where many checks fail. -/
theorem analyzeSEO_suggestions_at_most_five_witness :
    ((analyzeSEO "" "" "" "bad slug!" []).toOption.getD
        dummyAnalysis).suggestions.length ≤ 5 :=
  analyzeSEO_suggestions_at_most_five "" "" "" "bad slug!" []
    ((analyzeSEO "" "" "" "bad slug!" []).toOption.getD dummyAnalysis) (by rfl)

/-! ## The focus keyword as the spec describes it -/

/-- Modelled from the spec's words in C4: "the focus keyword itself is the
first two non-stop-words of the title (lowercased, punctuation removed),
else the first tag lowercased, else the first title word, else the empty
string".  Empty split fields are not words and are dropped; note there is
no requirement here that a word be longer than two characters. -/
def claimFocusKeyword (title : String) (tags : List String) : String :=
  let ws := ((splitRuns isJsSpace 1
      (String.mk ((toLowerAscii title).toList.filter
        (fun c => isWordChar c || isJsSpace c)))).filter
    (fun w => decide (0 < w.length) && !stopWords.contains w))
  if 2 ≤ ws.length then ws.headD "" ++ " " ++ (ws.drop 1).headD ""
  else if 0 < tags.length then toLowerAscii (tags.headD "")
  else ws.headD ""

/-- The claim amended as the code forces: the candidate title words are
those longer than two characters that are not stop words; the keyword is
the first two of them joined by a space, else the first tag lowercased,
else the remaining title word, else the empty string. -/
def claimFocusKeywordAmended (title : String) (tags : List String) : String :=
  let ws := ((splitRuns isJsSpace 1
      (String.mk ((toLowerAscii title).toList.filter
        (fun c => isWordChar c || isJsSpace c)))).filter
    (fun w => decide (2 < w.length) && !stopWords.contains w))
  if 2 ≤ ws.length then ws.headD "" ++ " " ++ (ws.drop 1).headD ""
  else if 0 < tags.length then toLowerAscii (tags.headD "")
  else ws.headD ""

theorem extractFocusKeyword_eq_amended (t : String) (gs : List String) :
    extractFocusKeyword t gs = claimFocusKeywordAmended t gs := by
  unfold extractFocusKeyword claimFocusKeywordAmended cleanTitleWords
  cases h : ((splitRuns isJsSpace 1
      (String.mk ((toLowerAscii t).toList.filter
        (fun c => isWordChar c || isJsSpace c)))).filter
    (fun w => decide (2 < w.length) && !stopWords.contains w)) with
  | nil => cases gs <;> simp
  | cons w1 tl =>
    cases tl with
    | nil => cases gs <;> simp
    | cons w2 tl2 => cases gs <;> simp

/-- The score formula of the keyword block. -/
theorem keywordBlock_score_formula (t fk fp lp : String) (d : Frac) (c w : Nat) :
    (keywordBlock t fk fp lp d c w).1.score =
      (if keywordInText t fk then 5 else 0) +
      (if keywordInText fp fk then 5 else 0) +
      (if keywordInText lp fk then 3 else 0) +
      (if Frac.le (Frac.mk 1 2) d && Frac.le d (Frac.mk 5 2) then 7 else 3) ∧
    (keywordBlock t fk fp lp d c w).1.density = d ∧
    (keywordBlock t fk fp lp d c w).1.keyword = fk := by
  unfold keywordBlock
  split_ifs <;> simp_all

/-- C4 (amended): the keyword component score is 5 points for the focus
keyword occurring case-insensitively in the title, plus 5 for the first
paragraph, plus 3 for the last paragraph, plus 7 when the keyword density
lies in [0.5, 2.5] percent and 3 otherwise; the focus keyword is the first
two title words longer than two characters that are not stop words
(lowercased, punctuation removed), else the first tag lowercased, else the
remaining title word, else the empty string. -/
theorem analyzeSEO_keyword_component
    (title description content slug : String) (tags : List String)
    (r : SEOAnalysis)
    (h : analyzeSEO title description content slug tags = Except.ok r) :
    r.keyword.keyword = extractFocusKeyword title tags ∧
    r.keyword.keyword = claimFocusKeywordAmended title tags ∧
    r.keyword.score =
      (if keywordInText title r.keyword.keyword then 5 else 0) +
      (if keywordInText (getFirstParagraph content) r.keyword.keyword then 5 else 0) +
      (if keywordInText (getLastParagraph content) r.keyword.keyword then 3 else 0) +
      (if Frac.le (Frac.mk 1 2) r.keyword.density &&
          Frac.le r.keyword.density (Frac.mk 5 2) then 7 else 3) := by
  obtain ⟨d, c, _, _, hr⟩ := analyzeSEO_ok h
  subst hr
  have hf := keywordBlock_score_formula title (extractFocusKeyword title tags)
    (getFirstParagraph content) (getLastParagraph content) d c (countWords content)
  have hk : (mkAnalysis title description content slug tags d c).keyword.keyword =
      extractFocusKeyword title tags := hf.2.2
  have hdn : (mkAnalysis title description content slug tags d c).keyword.density =
      d := hf.2.1
  refine ⟨hk, ?_, ?_⟩
  · rw [hk]; exact extractFocusKeyword_eq_amended title tags
  · rw [hk, hdn]; exact hf.1

/-- Witness for C4 (amended) at a concrete input. -/
theorem analyzeSEO_keyword_component_witness :
    ((analyzeSEO "IPTV Player Setup" "d" "iptv player is here." "s" []).toOption.getD
        dummyAnalysis).keyword.keyword = "iptv player" :=
  ((analyzeSEO_keyword_component "IPTV Player Setup" "d" "iptv player is here." "s" []
    ((analyzeSEO "IPTV Player Setup" "d" "iptv player is here." "s" []).toOption.getD
      dummyAnalysis) (by rfl)).1).trans (by rfl)

/-- Counterexample for C4 as stated: on title "Set up APIs" with first tag
"dog", the code's focus keyword is "set apis" (the word "up" is dropped by
the `length > 2` filter the claim omits), while the claim's description
yields "set up". -/
theorem analyzeSEO_keyword_counterexample :
    ((analyzeSEO "Set up APIs" "" "" "" ["dog"]).toOption.getD
        dummyAnalysis).keyword.keyword = "set apis" ∧
    (analyzeSEO "Set up APIs" "" "" "" ["dog"]).toOption.isSome = true ∧
    claimFocusKeyword "Set up APIs" ["dog"] = "set up" ∧
    "set apis" ≠ "set up" := by
  exact ⟨rfl, rfl, rfl, by decide⟩

/-! ## C5: the content component -/

theorem contentBlock_branches (w : Nat) :
    (contentBlock w).1.wordCount = w ∧
    (w = 0 → (contentBlock w).1.score = 0 ∧
      (contentBlock w).1.status = SEOStatus.error) ∧
    (1 ≤ w → w ≤ 299 → (contentBlock w).1.score = 5 ∧
      (contentBlock w).1.status = SEOStatus.error) ∧
    (300 ≤ w → w ≤ 999 → (contentBlock w).1.score = 10 ∧
      (contentBlock w).1.status = SEOStatus.warning) ∧
    (1000 ≤ w → w ≤ 1499 → (contentBlock w).1.score = 15 ∧
      (contentBlock w).1.status = SEOStatus.warning) ∧
    (1500 ≤ w → (contentBlock w).1.score = 20 ∧
      (contentBlock w).1.status = SEOStatus.good) := by
  unfold contentBlock
  split_ifs <;> simp_all <;> omega

theorem contentBlock_score_mono (w1 w2 : Nat) (h : w1 ≤ w2) :
    (contentBlock w1).1.score ≤ (contentBlock w2).1.score := by
  unfold contentBlock
  split_ifs <;> simp_all <;> omega

/-- C5: the content component is a function of the word count: 0 words
give score 0 with status error, 1-299 give 5 with error, 300-999 give 10
with warning, 1000-1499 give 15 with warning, 1500 or more give 20 with
good; the component score is monotone in the word count. -/
theorem analyzeSEO_content_component
    (title description content slug : String) (tags : List String)
    (r : SEOAnalysis)
    (h : analyzeSEO title description content slug tags = Except.ok r) :
    r.content.wordCount = countWords content ∧
    (countWords content = 0 → r.content.score = 0 ∧
      r.content.status = SEOStatus.error) ∧
    (1 ≤ countWords content → countWords content ≤ 299 → r.content.score = 5 ∧
      r.content.status = SEOStatus.error) ∧
    (300 ≤ countWords content → countWords content ≤ 999 → r.content.score = 10 ∧
      r.content.status = SEOStatus.warning) ∧
    (1000 ≤ countWords content → countWords content ≤ 1499 → r.content.score = 15 ∧
      r.content.status = SEOStatus.warning) ∧
    (1500 ≤ countWords content → r.content.score = 20 ∧
      r.content.status = SEOStatus.good) ∧
    (∀ w1 w2 : Nat, w1 ≤ w2 →
      (contentBlock w1).1.score ≤ (contentBlock w2).1.score) := by
  obtain ⟨d, c, _, _, hr⟩ := analyzeSEO_ok h
  subst hr
  have hb := contentBlock_branches (countWords content)
  exact ⟨hb.1, hb.2.1, hb.2.2.1, hb.2.2.2.1, hb.2.2.2.2.1, hb.2.2.2.2.2,
    contentBlock_score_mono⟩

/-- Witness for C5 at a concrete input with three words. -/
theorem analyzeSEO_content_component_witness :
    ((analyzeSEO "t" "d" "three short words" "s" []).toOption.getD
        dummyAnalysis).content.score = 5 :=
  ((analyzeSEO_content_component "t" "d" "three short words" "s" []
    ((analyzeSEO "t" "d" "three short words" "s" []).toOption.getD dummyAnalysis)
    (by rfl)).2.2.1 (by decide) (by decide)).1

/-! ## The upload POST handler (`src/app/api/upload/route.ts`)

The handler is one `try`/`catch`: the `try` body inspects the ImageKit
configuration, the uploaded file's presence, MIME type and size, and then
awaits the ImageKit upload; any exception thrown during processing is
caught and mapped to a 500 JSON response.  We model the request-dependent
data as arguments: whether ImageKit is configured, the (optional) file
with its MIME type and size, and the outcome of the awaited ImageKit
upload (`Except.error` standing for a thrown exception).  A response is
modelled by its status code and its `error` field. -/

structure UploadedFile where
  name : String
  type : String
  size : Nat
deriving DecidableEq, Repr

structure HttpJson where
  status : Nat
  error : Option String
deriving DecidableEq, Repr

structure ImageKitUpload where
  url : String
  fileId : String
  name : String
  size : Nat
  thumbnailUrl : String
deriving DecidableEq, Repr

def allowedTypes : List String :=
  ["image/jpeg", "image/jpg", "image/png", "image/webp", "image/gif"]

/-- `10 * 1024 * 1024` bytes. -/
def maxUploadSize : Nat := 10 * 1024 * 1024

/-- The `try` body of the POST handler. -/
def uploadPostBody (imagekitConfigured : Bool) (file : Option UploadedFile)
    (upstream : Except String ImageKitUpload) : Except String HttpJson :=
  if !imagekitConfigured then
    match file with
    | none => Except.ok { status := 400, error := some "No file uploaded" }
    | some _ => Except.ok { status := 200, error := none }
  else
    match file with
    | none => Except.ok { status := 400, error := some "No file uploaded" }
    | some f =>
      if !allowedTypes.contains f.type then
        Except.ok { status := 400,
                    error := some "Invalid file type. Only images are allowed." }
      else if maxUploadSize < f.size then
        Except.ok { status := 400,
                    error := some "File too large. Maximum size is 10MB." }
      else
        match upstream with
        | Except.error e => Except.error e
        | Except.ok _ => Except.ok { status := 200, error := none }

/-- The POST handler: the `catch` maps any thrown exception to a 500 JSON
response. -/
def uploadPost (imagekitConfigured : Bool) (file : Option UploadedFile)
    (upstream : Except String ImageKitUpload) : HttpJson :=
  match uploadPostBody imagekitConfigured file upstream with
  | Except.ok resp => resp
  | Except.error _ =>
      { status := 500, error := some "Failed to upload file to ImageKit" }

/-- C6: the upload POST handler maps every error to an HTTP status and
never lets an exception escape: with ImageKit configured, a missing file
gives 400 "No file uploaded"; a file whose MIME type is not allowed gives
400; an allowed file larger than 10485760 bytes gives 400 "File too
large. Maximum size is 10MB."; an exception thrown during the upload is
caught and gives a 500 JSON response; and every response has status 200,
400 or 500. -/
theorem uploadPost_error_mapping (imagekitConfigured : Bool)
    (file : Option UploadedFile) (upstream : Except String ImageKitUpload) :
    (imagekitConfigured = true → file = none →
      uploadPost imagekitConfigured file upstream =
        { status := 400, error := some "No file uploaded" }) ∧
    (∀ f, imagekitConfigured = true → file = some f →
      allowedTypes.contains f.type = false →
      uploadPost imagekitConfigured file upstream =
        { status := 400,
          error := some "Invalid file type. Only images are allowed." }) ∧
    (∀ f, imagekitConfigured = true → file = some f →
      allowedTypes.contains f.type = true → 10485760 < f.size →
      uploadPost imagekitConfigured file upstream =
        { status := 400, error := some "File too large. Maximum size is 10MB." }) ∧
    (∀ f e, imagekitConfigured = true → file = some f →
      allowedTypes.contains f.type = true → f.size ≤ 10485760 →
      upstream = Except.error e →
      uploadPost imagekitConfigured file upstream =
        { status := 500, error := some "Failed to upload file to ImageKit" }) ∧
    ((uploadPost imagekitConfigured file upstream).status = 200 ∨
      (uploadPost imagekitConfigured file upstream).status = 400 ∨
      (uploadPost imagekitConfigured file upstream).status = 500) := by
  refine ⟨?_, ?_, ?_, ?_, ?_⟩
  · intro hc hf
    subst hc; subst hf
    rfl
  · intro f hc hf ht
    subst hc; subst hf
    simp at ht
    simp [uploadPost, uploadPostBody, ht]
  · intro f hc hf ht hs
    subst hc; subst hf
    simp at ht
    have hs' : maxUploadSize < f.size := hs
    simp [uploadPost, uploadPostBody, ht, hs']
  · intro f e hc hf ht hs hu
    subst hc; subst hf; subst hu
    simp at ht
    have hs' : ¬ maxUploadSize < f.size := by
      simp [maxUploadSize]; omega
    simp [uploadPost, uploadPostBody, ht, hs']
  · unfold uploadPost uploadPostBody
    rcases file with _ | f
    · cases imagekitConfigured <;> simp
    · rcases upstream with e | u <;> cases imagekitConfigured <;>
        by_cases ht : f.type ∈ allowedTypes <;>
        by_cases hs : maxUploadSize < f.size <;>
        simp [ht, hs]

/-- Witness for C6: a configured handler with no file answers 400. -/
theorem uploadPost_error_mapping_witness :
    uploadPost true none (Except.error "boom") =
      { status := 400, error := some "No file uploaded" } :=
  (uploadPost_error_mapping true none (Except.error "boom")).1 rfl rfl

/-! ## The sitemap generator (`src/app/sitemap.ts`)

The route builds two static entries, then the published articles (ordered
by `updatedAt` descending), then the active categories, then the active
pages.  The database state is modelled as the three record lists; the
Prisma queries are their `where`-filters, with the article `orderBy`
modelled as a sort by `updatedAt` descending (ties are in an unspecified
database order; insertion sort picks one).  `safeDbOperation` falls back
to `[]` only on a database error, which the claim does not quantify over;
the success path is modelled.  `new Date()` for the static entries is the
`now` argument. -/

inductive ArticleStatus where
  | DRAFT
  | PUBLISHED
  | ARCHIVED
deriving DecidableEq, Repr

structure DbArticle where
  slug : String
  status : ArticleStatus
  updatedAt : Nat
deriving DecidableEq, Repr

structure DbCategory where
  slug : String
  isActive : Bool
  updatedAt : Nat
deriving DecidableEq, Repr

structure DbPage where
  slug : String
  isActive : Bool
  updatedAt : Nat
deriving DecidableEq, Repr

structure DbState where
  articles : List DbArticle
  categories : List DbCategory
  pages : List DbPage
deriving DecidableEq, Repr

structure SitemapEntry where
  url : String
  lastModified : Nat
  changeFrequency : String
  priority : Frac
deriving DecidableEq, Repr

def baseUrl : String := "https://iptv-blogg.site"

def staticEntries (now : Nat) : List SitemapEntry :=
  [{ url := baseUrl, lastModified := now, changeFrequency := "daily",
     priority := Frac.ofInt 1 },
   { url := baseUrl ++ "/articles", lastModified := now, changeFrequency := "daily",
     priority := Frac.mk 9 10 }]

def articleEntry (a : DbArticle) : SitemapEntry :=
  { url := baseUrl ++ "/article/" ++ a.slug, lastModified := a.updatedAt,
    changeFrequency := "weekly", priority := Frac.mk 8 10 }

def categoryEntry (c : DbCategory) : SitemapEntry :=
  { url := baseUrl ++ "/category/" ++ c.slug, lastModified := c.updatedAt,
    changeFrequency := "weekly", priority := Frac.mk 7 10 }

def pageEntry (p : DbPage) : SitemapEntry :=
  { url := baseUrl ++ "/pages/" ++ p.slug, lastModified := p.updatedAt,
    changeFrequency := "monthly", priority := Frac.mk 5 10 }

/-- `updatedAt: 'desc'`. -/
def byUpdatedDesc (a b : DbArticle) : Prop := b.updatedAt ≤ a.updatedAt

instance : DecidableRel byUpdatedDesc := fun a b =>
  inferInstanceAs (Decidable (b.updatedAt ≤ a.updatedAt))

/-- The sitemap route. -/
def sitemap (db : DbState) (now : Nat) : List SitemapEntry :=
  staticEntries now ++
    ((db.articles.filter
        (fun a => decide (a.status = ArticleStatus.PUBLISHED))).insertionSort
      byUpdatedDesc).map articleEntry ++
    (db.categories.filter (fun c => c.isActive)).map categoryEntry ++
    (db.pages.filter (fun p => p.isActive)).map pageEntry

/-- C9: for every database state, the sitemap is exactly the two static
entries, followed by one entry per PUBLISHED article (in the query's
order, a permutation of the filtered list), then one entry per active
category, then one entry per active page, in that order; and every entry
is either static or generated from a PUBLISHED article, an active
category or an active page, so no draft or archived article and no
inactive category or page appears. -/
theorem sitemap_exactly_published_and_active (db : DbState) (now : Nat) :
    (∃ arts : List SitemapEntry,
      arts.Perm ((db.articles.filter
          (fun a => decide (a.status = ArticleStatus.PUBLISHED))).map articleEntry) ∧
      sitemap db now = staticEntries now ++ arts ++
        (db.categories.filter (fun c => c.isActive)).map categoryEntry ++
        (db.pages.filter (fun p => p.isActive)).map pageEntry) ∧
    (sitemap db now).length =
      2 + (db.articles.filter
            (fun a => decide (a.status = ArticleStatus.PUBLISHED))).length +
        (db.categories.filter (fun c => c.isActive)).length +
        (db.pages.filter (fun p => p.isActive)).length ∧
    (∀ e, e ∈ sitemap db now →
      e ∈ staticEntries now ∨
      (∃ a, a ∈ db.articles ∧ a.status = ArticleStatus.PUBLISHED ∧
        e = articleEntry a) ∨
      (∃ c, c ∈ db.categories ∧ c.isActive = true ∧ e = categoryEntry c) ∨
      (∃ p, p ∈ db.pages ∧ p.isActive = true ∧ e = pageEntry p)) := by
  have hperm :
      ((db.articles.filter
          (fun a => decide (a.status = ArticleStatus.PUBLISHED))).insertionSort
        byUpdatedDesc).Perm
        (db.articles.filter (fun a => decide (a.status = ArticleStatus.PUBLISHED))) :=
    List.perm_insertionSort byUpdatedDesc _
  refine ⟨⟨_, hperm.map articleEntry, ?_⟩, ?_, ?_⟩
  · rfl
  · unfold sitemap
    simp [staticEntries, hperm.length_eq]
    omega
  · intro e he
    unfold sitemap at he
    simp only [List.mem_append] at he
    rcases he with ((hs | ha) | hc) | hp
    · exact Or.inl hs
    · refine Or.inr (Or.inl ?_)
      obtain ⟨a, ha2, rfl⟩ := List.mem_map.mp ha
      have ha3 := hperm.mem_iff.mp ha2
      have := List.mem_filter.mp ha3
      exact ⟨a, this.1, by simpa using this.2, rfl⟩
    · refine Or.inr (Or.inr (Or.inl ?_))
      obtain ⟨cg, hc2, rfl⟩ := List.mem_map.mp hc
      have := List.mem_filter.mp hc2
      exact ⟨cg, this.1, this.2, rfl⟩
    · refine Or.inr (Or.inr (Or.inr ?_))
      obtain ⟨p, hp2, rfl⟩ := List.mem_map.mp hp
      have := List.mem_filter.mp hp2
      exact ⟨p, this.1, this.2, rfl⟩

/-- Witness for C9: a one-of-each database; the draft article and the
inactive category and page do not appear. -/
theorem sitemap_exactly_published_and_active_witness :
    (sitemap
      { articles := [{ slug := "a1", status := ArticleStatus.PUBLISHED,
                       updatedAt := 5 },
                     { slug := "a2", status := ArticleStatus.DRAFT, updatedAt := 9 }],
        categories := [{ slug := "c1", isActive := true, updatedAt := 3 },
                       { slug := "c2", isActive := false, updatedAt := 4 }],
        pages := [{ slug := "p1", isActive := false, updatedAt := 7 }] } 100).length =
      4 := by
  have h := (sitemap_exactly_published_and_active
    { articles := [{ slug := "a1", status := ArticleStatus.PUBLISHED, updatedAt := 5 },
                   { slug := "a2", status := ArticleStatus.DRAFT, updatedAt := 9 }],
      categories := [{ slug := "c1", isActive := true, updatedAt := 3 },
                     { slug := "c2", isActive := false, updatedAt := 4 }],
      pages := [{ slug := "p1", isActive := false, updatedAt := 7 }] } 100).2.1
  simpa using h

end Blog
